import Mathlib

/-!
Verification of the yt-music-downloader pipeline (main.go) via a shallow
embedding. The Bubble Tea `Update` loop, the tag editor, the reset logic,
the fan-out asset fetcher (`downloadCmd`), the lyrics lookup (`getLyrics`),
the cover-art lookup and the filename sanitizer are translated into
executable Lean functions. External effects (HTTP responses, subprocess
results) are passed in as explicit environment values; Go runtime panics
arising from unchecked `interface{}` type assertions are made visible as a
`GoPanic` error channel, distinct from the ordinary error values the
program itself produces.
-/

deriving instance DecidableEq for Except

/-! ## MusicBrainz / yt-dlp data (main.go JSON structs) -/

structure MBArtist where
  name : String
  joinPhrase : String
deriving DecidableEq

structure MBGenre where
  name : String
deriving DecidableEq

structure MBRecording where
  genres : List MBGenre
deriving DecidableEq

/-- `MBTrack`; `length` is in milliseconds (Go `int`). -/
structure MBTrack where
  id : String
  title : String
  number : String
  length : Int
  recording : MBRecording
deriving DecidableEq

structure MBMedia where
  format : String
  tracks : List MBTrack
deriving DecidableEq

structure MBReleaseGroup where
  id : String
  primaryType : String
deriving DecidableEq

structure MBRelease where
  id : String
  title : String
  artistCredit : List MBArtist
  date : String
  media : List MBMedia
  releaseGroup : MBReleaseGroup
deriving DecidableEq

/-- The values the Go `interface{}` field `meta` actually holds in this
program: `nil`, an `MBRelease`, or an `MBTrack`. -/
inductive Meta where
  | nothing
  | release (r : MBRelease)
  | track (t : MBTrack)
deriving DecidableEq

/-- `item` (list entry); `meta` is the provider payload. -/
structure item where
  title : String
  desc : String
  id : String
  url : String
  artist : String
  itemType : String
  meta : Meta
deriving DecidableEq

/-- Go zero value of `item`. -/
def emptyItem : item :=
  { title := "", desc := "", id := "", url := "", artist := "", itemType := "",
    meta := Meta.nothing }

structure finalTags where
  Title : String
  Artist : String
  Album : String
  Date : String
  TrackNumber : String
  AlbumArtist : String
  Lyrics : String
  DurationSec : Int
deriving DecidableEq

/-! ## UI components (bubbles), reduced to the state the core reads and writes -/

/-- `textinput.Model`, reduced to its value and focus flag. -/
structure TextInput where
  value : String
  focused : Bool
deriving DecidableEq

def newTextInput : TextInput := { value := "", focused := false }

/-- `list.Model`, reduced to title, items and cursor index
(`SelectedItem` is the item under the cursor, `nil` when out of range). -/
structure ListModel where
  title : String
  items : List item
  index : Nat
deriving DecidableEq

def newListModel (title : String) (items : List item) : ListModel :=
  { title := title, items := items, index := 0 }

def ListModel.selectedItem (l : ListModel) : Option item := l.items.get? l.index

/-! ## States and messages -/

inductive State where
  | stateCheckingDeps
  | stateInput
  | stateFetchingURLInfo
  | stateSearching
  | stateSelectYT
  | stateSelectMB
  | stateSelectTrack
  | stateEditTags
  | stateDownloading
  | stateShowSuccess
  | stateConfirmSkipMB
  | stateError
deriving DecidableEq

open State

structure model where
  state : State
  input : TextInput
  tagInputs : List TextInput
  focusIndex : Int
  ytResults : ListModel
  mbResults : ListModel
  tracklist : ListModel
  selectedYT : item
  selectedMB : item
  selectedTrack : item
  statusMsg : String
  error : Option String
  ytDlpPath : String
  ffmpegPath : String
  width : Int
  height : Int
  lastFile : String
deriving DecidableEq

/-- `newModel()` (the spinner is cosmetic and not modelled; `ti.Focus()`
sets the text input focused). -/
def newModel : model :=
  { state := stateCheckingDeps,
    input := { newTextInput with focused := true },
    tagInputs := [],
    focusIndex := 0,
    ytResults := newListModel "" [],
    mbResults := newListModel "" [],
    tracklist := newListModel "" [],
    selectedYT := emptyItem,
    selectedMB := emptyItem,
    selectedTrack := emptyItem,
    statusMsg := "依存関係を確認中...",
    error := none,
    ytDlpPath := "",
    ffmpegPath := "",
    width := 0,
    height := 0,
    lastFile := "" }

/-- A key event. `char c` is a single-rune key; `other s` covers every
remaining key (including multi-rune input), with `s` the value the Go
`msg.String()` call returns for it. -/
inductive Key where
  | enter
  | esc
  | ctrlC
  | up
  | down
  | char (c : Char)
  | other (s : String)
deriving DecidableEq

/-- Bubble Tea `KeyMsg.String()`. -/
def Key.str : Key → String
  | Key.enter => "enter"
  | Key.esc => "esc"
  | Key.ctrlC => "ctrl+c"
  | Key.up => "up"
  | Key.down => "down"
  | Key.char c => String.singleton c
  | Key.other s => s

/-- Go runtime panics the `Update` path can hit: a failed `interface{}`
type assertion, or a slice index out of range. These crash the process;
they are NOT error values the program handles. -/
inductive GoPanic where
  | typeAssertion (target : String)
  | indexOutOfRange
deriving DecidableEq

/-- The commands (`tea.Cmd`) a transition dispatches, by payload.
Cosmetic commands (spinner ticks, cursor blink/focus) are not modelled. -/
inductive Dispatch where
  | none
  | quit
  | checkFfmpeg
  | urlInfo (ytDlpPath query : String)
  | search (ytDlpPath query : String)
  | searchMB (query : String)
  | tracklist (releaseID : String)
  | download (ytDlpPath ffmpegPath : String) (yt mb : item) (tags : finalTags)
  | simpleDownload (ytDlpPath ffmpegPath : String) (yt : item)
  | reset
deriving DecidableEq

/-- The messages entering `Update`. Go messages carry a payload and an
`err` field checked first; `Except` captures exactly that. -/
inductive Msg where
  | key (k : Key)
  | windowSize (w h : Int)
  | ytDlpCheckResult (res : Except String String)
  | ffmpegCheckResult (res : Except String String)
  | urlInfoFetched (res : Except String item)
  | searchFinished (res : Except String (List item × List item))
  | mbSearchFinished (res : Except String (List item))
  | tracklistFinished (res : Except String (List item))
  | downloadFinished (res : Except String String)
  | reset
deriving DecidableEq

/-! ## Tag editor helpers -/

/-- `m.tagInputs[n].Value()`; only evaluated under a bounds guard. -/
def tagVal (ts : List TextInput) (n : Nat) : String :=
  match ts.get? n with
  | some t => t.value
  | none => ""

/-- `m.createTagInputs()`: asserts `selectedMB.meta.(MBRelease)` and then
`selectedTrack.meta.(MBTrack)` (unchecked Go type assertions, modelled as
`GoPanic`), then builds the five pre-filled inputs.
Widths and char limits are cosmetic and not modelled. -/
def createTagInputs (mb track : item) : Except GoPanic (List TextInput) :=
  match mb.meta with
  | Meta.release releaseInfo =>
    match track.meta with
    | Meta.track trackInfo =>
      Except.ok (List.map (fun v => { value := v, focused := false })
        [trackInfo.title, track.artist, releaseInfo.title, releaseInfo.date,
         trackInfo.number])
    | _ => Except.error (GoPanic.typeAssertion ("main.MBTrack"))
  | _ => Except.error (GoPanic.typeAssertion ("main.MBRelease"))

/-- `m.tagInputs[i].Focus()`: Go indexes the slice, panicking when `i` is
out of range; otherwise the element at `i` gains focus. -/
def focusAtE (i : Int) (ts : List TextInput) : Except GoPanic (List TextInput) :=
  if 0 ≤ i ∧ i < (ts.length : Int) then
    Except.ok (match ts.get? i.toNat with
      | some t => ts.set i.toNat { t with focused := true }
      | none => ts)
  else Except.error GoPanic.indexOutOfRange

/-- The `for i := range m.tagInputs` loop: the input at `fi` is focused,
every other input is blurred. -/
def refocusAll (fi : Int) : Nat → List TextInput → List TextInput
  | _, [] => []
  | i, t :: ts =>
    (if (i : Int) = fi then { t with focused := true }
     else { t with focused := false }) :: refocusAll fi (i + 1) ts

/-- `textinput.Model.Update`: a focused input appends typed runes to its
value; a blurred input, and any non-rune key, leaves the value as is. -/
def TextInput.update (k : Key) (t : TextInput) : TextInput :=
  match k with
  | Key.char c => if t.focused then { t with value := t.value.push c } else t
  | _ => t

/-- `m.tagInputs[n].Update(msg)` on the in-range element `n`. -/
def updAt (n : Nat) (k : Key) (ts : List TextInput) : List TextInput :=
  match ts.get? n with
  | some t => ts.set n (TextInput.update k t)
  | none => ts

/-- Cursor movement of `list.Model.Update`; coarse (no pagination or
filtering), enough for the transitions the core performs. -/
def ListModel.update (k : Key) (l : ListModel) : ListModel :=
  match k with
  | Key.up => { l with index := l.index - 1 }
  | Key.down => if l.index + 1 < l.items.length then { l with index := l.index + 1 } else l
  | _ => l

/-! ## The key-event half of `Update` (the `case tea.KeyMsg` switch) -/

def handleKey (m : model) (k : Key) : Except GoPanic (model × Dispatch) :=
  match m.state with
  | stateSelectYT =>
    if k = Key.enter then
      match ListModel.selectedItem m.ytResults with
      | some i =>
        Except.ok ({ m with
            selectedYT := i,
            state := stateSearching,
            statusMsg := "MusicBrainzでメタデータを検索中です..." },
          Dispatch.searchMB (i.title ++ " " ++ i.desc))
      | none => Except.ok (m, Dispatch.none)
    else if k = Key.esc then Except.ok ({ m with state := stateInput }, Dispatch.none)
    else Except.ok (m, Dispatch.none)
  | stateSelectMB =>
    if k = Key.enter then
      match ListModel.selectedItem m.mbResults with
      | some i =>
        Except.ok ({ m with
            selectedMB := i,
            state := stateSelectTrack,
            statusMsg := "トラックリストを取得中です..." },
          Dispatch.tracklist i.id)
      | none => Except.ok (m, Dispatch.none)
    else if Key.str k = "s" then
      Except.ok ({ m with state := stateConfirmSkipMB }, Dispatch.none)
    else if k = Key.esc then Except.ok ({ m with state := stateSelectYT }, Dispatch.none)
    else Except.ok (m, Dispatch.none)
  | stateSelectTrack =>
    if k = Key.enter then
      match ListModel.selectedItem m.tracklist with
      | some i =>
        match createTagInputs m.selectedMB i with
        | Except.error p => Except.error p
        | Except.ok inputs =>
          match focusAtE 0 inputs with
          | Except.error p => Except.error p
          | Except.ok inputs2 =>
            Except.ok ({ m with
                selectedTrack := i,
                state := stateEditTags,
                focusIndex := 0,
                tagInputs := inputs2 }, Dispatch.none)
      | none => Except.ok (m, Dispatch.none)
    else if k = Key.esc then Except.ok ({ m with state := stateSelectMB }, Dispatch.none)
    else Except.ok (m, Dispatch.none)
  | stateEditTags =>
    if k = Key.enter then
      if m.focusIndex = (m.tagInputs.length : Int) - 1 then
        match m.selectedTrack.meta with
        | Meta.track trackInfo =>
          if 5 ≤ m.tagInputs.length then
            Except.ok ({ m with
                state := stateDownloading,
                statusMsg := "音声・ジャケット・歌詞を取得中です..." },
              Dispatch.download m.ytDlpPath m.ffmpegPath m.selectedYT m.selectedMB
                { Title := tagVal m.tagInputs 0,
                  Artist := tagVal m.tagInputs 1,
                  Album := tagVal m.tagInputs 2,
                  Date := tagVal m.tagInputs 3,
                  TrackNumber := tagVal m.tagInputs 4,
                  AlbumArtist := tagVal m.tagInputs 1,
                  Lyrics := "",
                  DurationSec := Int.tdiv trackInfo.length 1000 })
          else Except.error GoPanic.indexOutOfRange
        | _ => Except.error (GoPanic.typeAssertion ("main.MBTrack"))
      else
        match focusAtE (m.focusIndex + 1) m.tagInputs with
        | Except.error p => Except.error p
        | Except.ok ts =>
          Except.ok ({ m with
              focusIndex := m.focusIndex + 1,
              tagInputs := ts }, Dispatch.none)
    else if k = Key.esc then Except.ok ({ m with state := stateSelectTrack }, Dispatch.none)
    else
      let fi0 : Int :=
        if Key.str k = "up" then m.focusIndex - 1
        else if Key.str k = "down" then m.focusIndex + 1
        else m.focusIndex
      let fi : Int :=
        if fi0 < 0 then (m.tagInputs.length : Int) - 1
        else if (m.tagInputs.length : Int) ≤ fi0 then 0
        else fi0
      Except.ok ({ m with
          focusIndex := fi,
          tagInputs := refocusAll fi 0 m.tagInputs }, Dispatch.none)
  | stateInput =>
    if k = Key.enter then
      if m.input.value.startsWith ("http") then
        Except.ok ({ m with
            state := stateFetchingURLInfo,
            statusMsg := "URLから情報を取得中です..." },
          Dispatch.urlInfo m.ytDlpPath m.input.value)
      else
        Except.ok ({ m with
            state := stateSearching,
            statusMsg := "YouTubeとMusicBrainzを検索中です..." },
          Dispatch.search m.ytDlpPath m.input.value)
    else Except.ok (m, Dispatch.none)
  | stateConfirmSkipMB =>
    if (Key.str k).toLower = "y" ∨ (Key.str k).toLower = "enter" then
      Except.ok ({ m with
          state := stateDownloading,
          statusMsg := "タグ無しでダウンロード中です..." },
        Dispatch.simpleDownload m.ytDlpPath m.ffmpegPath m.selectedYT)
    else if (Key.str k).toLower = "n" ∨ (Key.str k).toLower = "esc" then
      Except.ok ({ m with state := stateSelectYT }, Dispatch.none)
    else Except.ok (m, Dispatch.none)
  | stateShowSuccess => Except.ok (m, Dispatch.reset)
  | stateError => Except.ok (m, Dispatch.reset)
  | _ => Except.ok (m, Dispatch.none)

/-- The trailing per-state component update (the second `switch m.state`
after the message switch); it runs on the post-transition state with the
same message. Non-key messages leave the components unchanged. -/
def applyTrailing (m : model) (k : Key) : Except GoPanic model :=
  match m.state with
  | stateInput => Except.ok { m with input := TextInput.update k m.input }
  | stateSelectYT => Except.ok { m with ytResults := ListModel.update k m.ytResults }
  | stateSelectMB => Except.ok { m with mbResults := ListModel.update k m.mbResults }
  | stateSelectTrack => Except.ok { m with tracklist := ListModel.update k m.tracklist }
  | stateEditTags =>
    if m.focusIndex < (m.tagInputs.length : Int) then
      if 0 ≤ m.focusIndex then
        Except.ok { m with tagInputs := updAt m.focusIndex.toNat k m.tagInputs }
      else Except.error GoPanic.indexOutOfRange
    else Except.ok m
  | _ => Except.ok m

/-- `model.Update`. `Ctrl+C` returns immediately with `tea.Quit`;
every other key runs the state switch and then the trailing component
update; async completion messages run their own cases. -/
def update (m : model) (msg : Msg) : Except GoPanic (model × Dispatch) :=
  match msg with
  | Msg.key k =>
    if k = Key.ctrlC then Except.ok (m, Dispatch.quit)
    else
      match handleKey m k with
      | Except.error p => Except.error p
      | Except.ok (m1, d) =>
        match applyTrailing m1 k with
        | Except.error p => Except.error p
        | Except.ok m2 => Except.ok (m2, d)
  | Msg.windowSize w h => Except.ok ({ m with width := w, height := h }, Dispatch.none)
  | Msg.ytDlpCheckResult res =>
    match res with
    | Except.error e => Except.ok ({ m with state := stateError, error := some e }, Dispatch.none)
    | Except.ok p => Except.ok ({ m with ytDlpPath := p }, Dispatch.checkFfmpeg)
  | Msg.ffmpegCheckResult res =>
    match res with
    | Except.error _ =>
      Except.ok ({ m with
          state := stateError,
          error := some "ffmpegが見つかりません。\n音声変換には必須です。OSに合わせてインストールしてください。\n(例: brew install ffmpeg)" },
        Dispatch.none)
    | Except.ok p => Except.ok ({ m with ffmpegPath := p, state := stateInput }, Dispatch.none)
  | Msg.urlInfoFetched res =>
    match res with
    | Except.error e => Except.ok ({ m with state := stateError, error := some e }, Dispatch.none)
    | Except.ok i =>
      Except.ok ({ m with
          selectedYT := i,
          state := stateSearching,
          statusMsg := "MusicBrainzでメタデータを検索中です..." },
        Dispatch.searchMB (i.title ++ " " ++ i.desc))
  | Msg.searchFinished res =>
    match res with
    | Except.error e => Except.ok ({ m with state := stateError, error := some e }, Dispatch.none)
    | Except.ok (ytItems, mbItems) =>
      Except.ok ({ m with
          state := stateSelectYT,
          ytResults := newListModel ("どの音源をダウンロードしますか？") ytItems,
          mbResults := newListModel ("どのリリースからタグ情報を取得しますか？") mbItems },
        Dispatch.none)
  | Msg.mbSearchFinished res =>
    match res with
    | Except.error e => Except.ok ({ m with state := stateError, error := some e }, Dispatch.none)
    | Except.ok items =>
      if items.length = 0 then
        Except.ok ({ m with state := stateConfirmSkipMB }, Dispatch.none)
      else
        Except.ok ({ m with
            state := stateSelectMB,
            mbResults := newListModel ("どのリリースからタグ情報を取得しますか？") items },
          Dispatch.none)
  | Msg.tracklistFinished res =>
    match res with
    | Except.error e => Except.ok ({ m with state := stateError, error := some e }, Dispatch.none)
    | Except.ok items =>
      if items.length = 0 then
        Except.ok ({ m with
            state := stateError,
            error := some "選択したリリースにはトラック情報が含まれていませんでした。別のリリースを選択してください。" },
          Dispatch.none)
      else
        Except.ok ({ m with
            state := stateSelectTrack,
            tracklist := newListModel ("「" ++ m.selectedMB.title ++ "」から曲を選択してください") items },
          Dispatch.none)
  | Msg.downloadFinished res =>
    match res with
    | Except.error e => Except.ok ({ m with state := stateError, error := some e }, Dispatch.none)
    | Except.ok f =>
      Except.ok ({ m with state := stateShowSuccess, lastFile := f }, Dispatch.none)
  | Msg.reset =>
    Except.ok ({ newModel with
        ytDlpPath := m.ytDlpPath,
        ffmpegPath := m.ffmpegPath,
        width := m.width,
        height := m.height,
        state := stateInput,
        statusMsg := "" },
      Dispatch.none)

/-! ## Filename sanitizer (`sanitizeFilename`) -/

/-- The eight replacer pairs whose substitute is `-`. -/
def mapsToDash (c : Char) : Bool :=
  c == '/' || c == '\\' || c == ':' || c == '*' || c == '?' || c == '<' ||
  c == '>' || c == '|'

/-- One of the nine path-unsafe characters the replacer rewrites
(`/ \ : * ? " < > |`). -/
def isBanned (c : Char) : Bool := mapsToDash c || c == '"'

/-- The per-character action of the `strings.NewReplacer` in
`sanitizeFilename`: all pairs are single characters, so the replacer is a
character-wise map. `"` becomes an apostrophe (`Char.ofNat 39`), every
other unsafe character becomes `-`. -/
def sanitizeChar (c : Char) : Char :=
  if mapsToDash c then '-'
  else if c == '"' then Char.ofNat 39
  else c

/-- `sanitizeFilename`. -/
def sanitizeFilename (s : String) : String := String.mk (s.data.map sanitizeChar)

/-! ## Lyrics lookup (`getLyrics` against lrclib) -/

/-- The lrclib provider's response body. The provider returns both a
`plainLyrics` and a `syncedLyrics` field; the Go struct `LrclibResponse`
declares a single field named `PlainLyrics` whose json tag is
`"syncedLyrics"`, so decoding binds the SYNCED lyrics to it. -/
structure LrclibProviderBody where
  plainLyrics : String
  syncedLyrics : String
deriving DecidableEq

/-- Go `LrclibResponse` and the effect of `json.Unmarshal` on it: the
struct tag `json:"syncedLyrics"` fills `PlainLyrics` from the provider's
`syncedLyrics` field. -/
structure LrclibResponse where
  PlainLyrics : String
deriving DecidableEq

def decodeLrclib (b : LrclibProviderBody) : LrclibResponse :=
  { PlainLyrics := b.syncedLyrics }

/-- The outcome of the lrclib HTTP call: transport failure, or a status
code together with the body-decode outcome. -/
inductive LyricsHttp where
  | fail
  | ok (status : Int) (body : Except String LrclibProviderBody)
deriving DecidableEq

/-- `getLyrics(artist, title, album, duration)`, with the HTTP exchange
passed in as `env`. Transport failure, non-200 status and decode failure
each return the empty string; a decoded 200 response returns the
`PlainLyrics` field (which json decoding filled from `syncedLyrics`). -/
def getLyrics (artist title album : String) (duration : Int) (env : LyricsHttp) : String :=
  match env with
  | LyricsHttp.fail => ""
  | LyricsHttp.ok status body =>
    if status = 200 then
      match body with
      | Except.error _ => ""
      | Except.ok data => (decodeLrclib data).PlainLyrics
    else ""

/-! ## Cover art retrieval (the second goroutine of `downloadCmd`) -/

/-- Result of one `http.Get` against coverartarchive: transport error, or
a response with a status code. -/
inductive HttpGetResult where
  | fail
  | ok (status : Int)
deriving DecidableEq

/-- `err == nil && resp.StatusCode == 200`: the lookup produced a cover. -/
def gotCover : HttpGetResult → Bool
  | HttpGetResult.fail => false
  | HttpGetResult.ok s => s == 200

/-- The Go condition guarding the release-group fallback:
`coverPath == "" && releaseInfo.ReleaseGroup.ID != ""`. -/
def coverFallbackTried (tmpDir : String) (rel : MBRelease) (first : HttpGetResult) : Bool :=
  ((if gotCover first then tmpDir ++ ("/cover.jpg") else "") == "") &&
  !(rel.releaseGroup.id == "")

/-- The cover goroutine after the `meta.(MBRelease)` assertion: try the
release endpoint; then, under `coverFallbackTried`, the release-group
endpoint. `first` and `second` are the two HTTP outcomes. -/
def runCover (tmpDir : String) (rel : MBRelease) (first second : HttpGetResult) : String :=
  let coverPath := if gotCover first then tmpDir ++ ("/cover.jpg") else ""
  if coverPath == "" && !(rel.releaseGroup.id == "") then
    (if gotCover second then tmpDir ++ ("/cover.jpg") else coverPath)
  else coverPath

/-- Follows the spec's words for C4: the release-level lookup "returns
absence (not found, not error)" — a response was received and its status
is not 200. A transport error is NOT absence. -/
def isAbsence : HttpGetResult → Bool
  | HttpGetResult.fail => false
  | HttpGetResult.ok s => !(s == 200)

/-! ## The tagged download (`downloadCmd`) -/

/-- The outcomes of the external sub-operations one `downloadCmd` attempt
performs: audio extraction (`dlErr`), the two cover lookups, the lyrics
exchange, and the final ffmpeg merge. -/
structure DlEnv where
  audio : Except String Unit
  cover1 : HttpGetResult
  cover2 : HttpGetResult
  lyricsHttp : LyricsHttp
  merge : Except String Unit
deriving DecidableEq

/-- The ffmpeg argument list the merge step builds: cover input only when
a cover exists, metadata tags always, LYRICS only when non-empty. -/
def ffmpegArgs (audioPath coverPath lyrics finalPath : String) (tags : finalTags) : List String :=
  ["-y", "-i", audioPath] ++
  (if coverPath ≠ "" then
    ["-i", coverPath, "-map", "0:a:0", "-map", "1:v:0", "-disposition:v", "attached_pic"]
   else []) ++
  ["-c:a", "flac",
   "-metadata", "title=" ++ tags.Title,
   "-metadata", "artist=" ++ tags.Artist,
   "-metadata", "album_artist=" ++ tags.AlbumArtist,
   "-metadata", "album=" ++ tags.Album,
   "-metadata", "track=" ++ tags.TrackNumber,
   "-metadata", "date=" ++ tags.Date] ++
  (if lyrics ≠ "" then ["-metadata", "LYRICS=" ++ lyrics] else []) ++
  [finalPath]

/-- `downloadCmd` after the scratch dir is created, as a function of the
sub-operation outcomes. The outer `Except GoPanic` is the process panic
from the cover goroutine's `selectedMB.meta.(MBRelease)` assertion; the
inner `Except String String` is the `downloadFinishedMsg` (error or final
filename). After the barrier (`wg.Wait`): audio failure wins; then the
merge runs; on success the filename gains a suffix when lyrics exist. -/
def downloadCmdRun (yt mb : item) (tags : finalTags) (tmpDir : String) (env : DlEnv) :
    Except GoPanic (Except String String) :=
  match mb.meta with
  | Meta.release releaseInfo =>
    let coverPath := runCover tmpDir releaseInfo env.cover1 env.cover2
    let lyrics := getLyrics tags.Artist tags.Title tags.Album tags.DurationSec env.lyricsHttp
    Except.ok (
      match env.audio with
      | Except.error e => Except.error ("音声のダウンロード失敗:\n" ++ e)
      | Except.ok _ =>
        let finalPath := "GoMusicDownloader/downloads/" ++
          sanitizeFilename (tags.Artist ++ " - " ++ tags.Title ++ ".flac")
        match env.merge with
        | Except.error e => Except.error ("ffmpegでの変換失敗:\n" ++ e)
        | Except.ok _ =>
          Except.ok (finalPath ++ (if lyrics ≠ "" then " (歌詞付き)" else "")))
  | _ => Except.error (GoPanic.typeAssertion ("main.MBRelease"))

/-! ## The parallel free-text search (`searchCmd`) -/

/-- `searchCmd` after its two goroutines joined: the yt error is checked
first, then the mb error, else both item lists are delivered. There is no
zero-result branch. -/
def searchCmdRun (ytRes mbRes : Except String (List item)) : Msg :=
  match ytRes with
  | Except.error e => Msg.searchFinished (Except.error e)
  | Except.ok ytItems =>
    match mbRes with
    | Except.error e => Msg.searchFinished (Except.error e)
    | Except.ok mbItems => Msg.searchFinished (Except.ok (ytItems, mbItems))

/-- "Cover or lyrics sub-operation failed": transport error, non-200
status, or decode failure of the lrclib exchange. -/
def lyricsFailed : LyricsHttp → Bool
  | LyricsHttp.fail => true
  | LyricsHttp.ok s b =>
    !(s == 200) || (match b with | Except.error _ => true | Except.ok _ => false)

/-! ## Concrete fixtures used by counterexamples and witnesses -/

/-- A model sitting in `stateSelectYT` right after start-up. -/
def mSelYT : model := { newModel with state := stateSelectYT }

/-- A model sitting in `stateSelectMB`. -/
def mSelMB : model := { newModel with state := stateSelectMB }

/-- A lrclib body whose plain and synced lyrics differ. -/
def body0 : LrclibProviderBody := { plainLyrics := "PLAIN", syncedLyrics := "SYNCED" }

/-- A release with a non-empty release-group id. -/
def rel0 : MBRelease :=
  { id := "rel-1", title := "Album", artistCredit := [], date := "2020", media := [],
    releaseGroup := { id := "rg-1", primaryType := "Album" } }

/-- A 215500 ms track. -/
def track0 : MBTrack :=
  { id := "t1", title := "Song", number := "2", length := 215500,
    recording := { genres := [] } }

def relItem0 : item := { emptyItem with title := "Album", meta := Meta.release rel0 }

def trackItem0 : item :=
  { emptyItem with title := "Song", artist := "Artist", meta := Meta.track track0 }

/-- A model in the tag editor whose selected track payload is NOT a track
(the Go zero `interface{}`), on the last field. -/
def mBadMeta : model :=
  { newModel with
      state := stateEditTags,
      focusIndex := 4,
      tagInputs := [newTextInput, newTextInput, newTextInput, newTextInput, newTextInput] }

/-- A well-formed tag-editor model on the last field. -/
def mEdit0 : model :=
  { newModel with
      state := stateEditTags,
      focusIndex := 4,
      tagInputs := [{ value := "Song", focused := false }, { value := "Artist", focused := false },
        { value := "Album", focused := false }, { value := "2020", focused := false },
        { value := "2", focused := true }],
      selectedMB := relItem0,
      selectedTrack := trackItem0 }

/-- The same tag-editor model on a non-last field. -/
def mEdit1 : model := { mEdit0 with focusIndex := 1 }

/-- A model showing the success screen. -/
def mSucc : model :=
  { newModel with
      state := stateShowSuccess,
      ytDlpPath := "/usr/bin/yt-dlp",
      ffmpegPath := "/usr/bin/ffmpeg",
      width := 80,
      height := 24,
      lastFile := "GoMusicDownloader/downloads/x.flac" }

/-- Sub-operation outcomes: audio failed, everything else succeeded. -/
def envAudioFail : DlEnv :=
  { audio := Except.error "boom", cover1 := HttpGetResult.ok 200,
    cover2 := HttpGetResult.ok 200, lyricsHttp := LyricsHttp.ok 200 (Except.ok body0),
    merge := Except.ok () }

/-- Sub-operation outcomes: audio and merge succeeded, both cover lookups
and the lyrics exchange failed or found nothing. -/
def envAllMiss : DlEnv :=
  { audio := Except.ok (), cover1 := HttpGetResult.fail,
    cover2 := HttpGetResult.ok 404, lyricsHttp := LyricsHttp.fail,
    merge := Except.ok () }

/-- A finalized tag set used by witnesses. -/
def tags0 : finalTags :=
  { Title := "Song", Artist := "Artist", Album := "Album", Date := "2020",
    TrackNumber := "2", AlbumArtist := "Artist", Lyrics := "", DurationSec := 215 }


/-! ## Helper lemmas -/

theorem sanitizeChar_eq_dash (c : Char) (h : mapsToDash c = true) : sanitizeChar c = '-' := by
  unfold sanitizeChar
  rw [if_pos h]

theorem sanitizeChar_eq_apos (c : Char) (h1 : ¬ mapsToDash c = true) (h2 : (c == '"') = true) :
    sanitizeChar c = Char.ofNat 39 := by
  unfold sanitizeChar
  rw [if_neg h1, if_pos h2]

theorem sanitizeChar_eq_self (c : Char) (h1 : ¬ mapsToDash c = true) (h2 : ¬ (c == '"') = true) :
    sanitizeChar c = c := by
  unfold sanitizeChar
  rw [if_neg h1, if_neg h2]

theorem sanitizeChar_not_banned (c : Char) : isBanned (sanitizeChar c) = false := by
  by_cases h1 : mapsToDash c = true
  · rw [sanitizeChar_eq_dash c h1]; decide
  · by_cases h2 : (c == '"') = true
    · rw [sanitizeChar_eq_apos c h1 h2]; decide
    · rw [sanitizeChar_eq_self c h1 h2]
      unfold isBanned
      rw [Bool.eq_false_iff]
      intro hcontra
      rcases (Bool.or_eq_true _ _).mp hcontra with h | h
      · exact h1 h
      · exact h2 h

theorem sanitizeChar_idem (c : Char) : sanitizeChar (sanitizeChar c) = sanitizeChar c := by
  by_cases h1 : mapsToDash c = true
  · rw [sanitizeChar_eq_dash c h1]; decide
  · by_cases h2 : (c == '"') = true
    · rw [sanitizeChar_eq_apos c h1 h2]; decide
    · rw [sanitizeChar_eq_self c h1 h2, sanitizeChar_eq_self c h1 h2]

theorem sanitizeChar_moves_banned (c : Char) (h : isBanned c = true) : sanitizeChar c ≠ c := by
  intro hfix
  have := sanitizeChar_not_banned c
  rw [hfix, h] at this
  cases this

theorem map_sanitizeChar_idem (l : List Char) :
    (l.map sanitizeChar).map sanitizeChar = l.map sanitizeChar := by
  induction l with
  | nil => rfl
  | cons a l ih => simp [List.map_cons, ih, sanitizeChar_idem]

theorem str_append_cover_ne (tmpDir : String) : ((tmpDir ++ ("/cover.jpg")) == "") = false := by
  rw [beq_eq_false_iff_ne]
  intro h
  have hd : (tmpDir ++ ("/cover.jpg")).data = ([] : List Char) := by rw [h]
  rw [String.data_append] at hd
  simp at hd

theorem runCover_got_first (tmpDir : String) (rel : MBRelease) (first second : HttpGetResult)
    (h : gotCover first = true) :
    runCover tmpDir rel first second = tmpDir ++ ("/cover.jpg") := by
  unfold runCover
  simp [h, str_append_cover_ne]

theorem runCover_none (tmpDir : String) (rel : MBRelease) (first second : HttpGetResult)
    (h1 : gotCover first = false) (h2 : gotCover second = false) :
    runCover tmpDir rel first second = "" := by
  unfold runCover
  simp [h1, h2]

theorem getLyrics_failed (artist title album : String) (d : Int) (env : LyricsHttp)
    (h : lyricsFailed env = true) : getLyrics artist title album d env = "" := by
  cases env with
  | fail => rfl
  | ok s b =>
    cases b with
    | error e => simp [getLyrics]
    | ok body =>
      simp only [lyricsFailed, Bool.or_false, Bool.not_eq_true', beq_eq_false_iff_ne] at h
      simp [getLyrics, h]

/-! ## Claim theorems -/

/-- C8: the filename sanitizer is idempotent; its output contains no
occurrence of any of the characters `/ \ : * ? " < > |`; it acts
character-wise on the input, and every banned character is changed into a
substitute that is itself safe. -/
theorem sanitizeFilename_idempotent_and_safe :
    ∀ (s : String) (c : Char),
      sanitizeFilename (sanitizeFilename s) = sanitizeFilename s ∧
      (c ∈ (sanitizeFilename s).data → isBanned c = false) ∧
      (sanitizeFilename s).data = s.data.map sanitizeChar ∧
      (isBanned c = true → sanitizeChar c ≠ c ∧ isBanned (sanitizeChar c) = false) := by
  intro s c
  refine ⟨?_, ?_, rfl, ?_⟩
  · show String.mk ((s.data.map sanitizeChar).map sanitizeChar) = String.mk (s.data.map sanitizeChar)
    rw [map_sanitizeChar_idem]
  · intro hc
    rw [show (sanitizeFilename s).data = s.data.map sanitizeChar from rfl] at hc
    obtain ⟨a, _, rfl⟩ := List.mem_map.mp hc
    exact sanitizeChar_not_banned a
  · intro hb
    exact ⟨sanitizeChar_moves_banned c hb, sanitizeChar_not_banned c⟩

/-- C8 witness: on the concrete name `a/b`, the sanitized output character
`-` is safe, and the banned `/` is moved to a safe substitute. -/
theorem sanitizeFilename_idempotent_and_safe_witness :
    isBanned '-' = false ∧ sanitizeChar '/' ≠ '/' ∧ isBanned (sanitizeChar '/') = false := by
  have h1 := (sanitizeFilename_idempotent_and_safe ("a/b") '-').2.1
  have h2 := (sanitizeFilename_idempotent_and_safe ("a/b") '/').2.2.2
  exact ⟨h1 (by decide), (h2 (by decide)).1, (h2 (by decide)).2⟩

/-- C5 counterexample: on a 200 response whose body carries distinct
`plainLyrics` and `syncedLyrics` fields, `getLyrics` returns the SYNCED
lyrics (the Go struct tag binds `PlainLyrics` to the json key
`syncedLyrics`), not the plain lyrics the claim names. -/
theorem getLyrics_returns_synced_not_plain :
    getLyrics ("Artist") ("Title") ("Album") 200 (LyricsHttp.ok 200 (Except.ok body0)) =
      body0.syncedLyrics ∧
    getLyrics ("Artist") ("Title") ("Album") 200 (LyricsHttp.ok 200 (Except.ok body0)) ≠
      body0.plainLyrics := by
  decide

/-- C5 amended: the lyrics lookup returns the provider's SYNCED lyrics
text (the json field `syncedLyrics`, decoded into the Go field named
`PlainLyrics`) when the request succeeds with status 200 and the body
decodes, and the empty string on transport failure, non-200 status, or
decode failure. -/
theorem getLyrics_policy :
    ∀ (artist title album : String) (duration : Int),
      getLyrics artist title album duration LyricsHttp.fail = "" ∧
      (∀ (s : Int) (b : Except String LrclibProviderBody), s ≠ 200 →
        getLyrics artist title album duration (LyricsHttp.ok s b) = "") ∧
      (∀ e, getLyrics artist title album duration (LyricsHttp.ok 200 (Except.error e)) = "") ∧
      (∀ b, getLyrics artist title album duration (LyricsHttp.ok 200 (Except.ok b)) =
        b.syncedLyrics) := by
  intro artist title album duration
  refine ⟨rfl, ?_, ?_, ?_⟩
  · intro s b hs
    simp [getLyrics, hs]
  · intro e
    rfl
  · intro b
    rfl

/-- C5 witness: a 404 response yields empty lyrics. -/
theorem getLyrics_policy_witness :
    getLyrics ("A") ("T") ("L") 100 (LyricsHttp.ok 404 (Except.ok body0)) = "" :=
  (getLyrics_policy ("A") ("T") ("L") 100).2.1 404 (Except.ok body0) (by decide)

/-- C4 counterexample: when the release-level lookup fails with a
transport ERROR (not absence) and the release-group id is non-empty, the
code still performs the fallback — `coverFallbackTried` is true and the
fallback's 200 response is used — contradicting the claim that the
fallback happens only on absence. -/
theorem cover_fallback_on_error :
    coverFallbackTried ("tmp") rel0 HttpGetResult.fail = true ∧
    isAbsence HttpGetResult.fail = false ∧
    runCover ("tmp") rel0 HttpGetResult.fail (HttpGetResult.ok 200) = "tmp/cover.jpg" := by
  decide

/-- C4 amended: the release-level endpoint is consulted first and, when it
yields a cover (status 200), the fallback is not tried; the release-group
fallback is tried exactly when the release-level lookup yielded NO cover —
whether by transport error or by non-200 absence — and the release-group
id is non-empty; when both lookups yield no cover the path is empty; and
no cover outcome ever causes an overall fetch failure. -/
theorem cover_lookup_policy :
    ∀ (tmpDir : String) (rel : MBRelease) (first second : HttpGetResult),
      (gotCover first = true →
        runCover tmpDir rel first second = tmpDir ++ ("/cover.jpg") ∧
        coverFallbackTried tmpDir rel first = false) ∧
      (coverFallbackTried tmpDir rel first =
        ((!gotCover first) && !(rel.releaseGroup.id == ""))) ∧
      (gotCover first = false → gotCover second = false →
        runCover tmpDir rel first second = "") ∧
      (∀ (yt mb : item) (tags : finalTags) (env : DlEnv),
        mb.meta = Meta.release rel → env.audio = Except.ok () → env.merge = Except.ok () →
        ∃ name, downloadCmdRun yt mb tags tmpDir env = Except.ok (Except.ok name)) := by
  intro tmpDir rel first second
  refine ⟨?_, ?_, ?_, ?_⟩
  · intro h
    refine ⟨runCover_got_first tmpDir rel first second h, ?_⟩
    unfold coverFallbackTried
    simp [h, str_append_cover_ne]
  · unfold coverFallbackTried
    cases hg : gotCover first
    · simp
    · simp [str_append_cover_ne]
  · intro h1 h2
    exact runCover_none tmpDir rel first second h1 h2
  · intro yt mb tags env hmeta haudio hmerge
    simp only [downloadCmdRun, hmeta, haudio, hmerge]
    exact ⟨_, rfl⟩

/-- C4 witness: with a release whose group id is non-empty, a 200
release-level hit uses the release-level cover and skips the fallback, and
a fetch with audio and merge succeeding completes despite cover misses. -/
theorem cover_lookup_policy_witness :
    (runCover ("tmp") rel0 (HttpGetResult.ok 200) HttpGetResult.fail = "tmp/cover.jpg" ∧
      coverFallbackTried ("tmp") rel0 (HttpGetResult.ok 200) = false) ∧
    runCover ("tmp") rel0 HttpGetResult.fail (HttpGetResult.ok 404) = "" ∧
    ∃ name, downloadCmdRun emptyItem relItem0 tags0 ("tmp") envAllMiss =
      Except.ok (Except.ok name) := by
  have h := cover_lookup_policy ("tmp") rel0 (HttpGetResult.ok 200) HttpGetResult.fail
  have h2 := cover_lookup_policy ("tmp") rel0 HttpGetResult.fail (HttpGetResult.ok 404)
  refine ⟨?_, ?_, ?_⟩
  · have := h.1 (by decide)
    exact ⟨by rw [this.1]; decide, this.2⟩
  · exact h2.2.2.1 (by decide) (by decide)
  · exact h2.2.2.2 emptyItem relItem0 tags0 envAllMiss (by decide) rfl rfl

/-- C2: in `downloadCmd`, audio-extraction failure makes the completion an
overall failure regardless of the cover and lyrics outcomes; when audio
extraction succeeds (and the merge, which consumes only the audio path,
succeeds), missing or failed cover AND lyrics leave the attempt successful
with an empty cover path and empty lyrics. -/
theorem downloadCmd_failure_policy :
    ∀ (yt mb : item) (rel : MBRelease) (tags : finalTags) (tmpDir : String) (env : DlEnv),
      mb.meta = Meta.release rel →
      ((∀ e, env.audio = Except.error e →
          downloadCmdRun yt mb tags tmpDir env =
            Except.ok (Except.error ("音声のダウンロード失敗:\n" ++ e))) ∧
       (env.audio = Except.ok () → env.merge = Except.ok () →
        gotCover env.cover1 = false → gotCover env.cover2 = false →
        lyricsFailed env.lyricsHttp = true →
        runCover tmpDir rel env.cover1 env.cover2 = "" ∧
        getLyrics tags.Artist tags.Title tags.Album tags.DurationSec env.lyricsHttp = "" ∧
        downloadCmdRun yt mb tags tmpDir env =
          Except.ok (Except.ok ("GoMusicDownloader/downloads/" ++
            sanitizeFilename (tags.Artist ++ " - " ++ tags.Title ++ ".flac"))))) := by
  intro yt mb rel tags tmpDir env hmeta
  constructor
  · intro e he
    simp [downloadCmdRun, hmeta, he]
  · intro haudio hmerge hc1 hc2 hlyr
    have hcov := runCover_none tmpDir rel env.cover1 env.cover2 hc1 hc2
    have hly := getLyrics_failed tags.Artist tags.Title tags.Album tags.DurationSec
      env.lyricsHttp hlyr
    refine ⟨hcov, hly, ?_⟩
    simp [downloadCmdRun, hmeta, haudio, hmerge, hly, String.append_empty]

/-- C2 witness: with audio failing every other sub-operation succeeding
the completion is the audio failure; with audio and merge succeeding and
cover and lyrics both missing, the completion is a success. -/
theorem downloadCmd_failure_policy_witness :
    downloadCmdRun emptyItem relItem0 tags0 ("tmp") envAudioFail =
      Except.ok (Except.error ("音声のダウンロード失敗:\nboom")) ∧
    downloadCmdRun emptyItem relItem0 tags0 ("tmp") envAllMiss =
      Except.ok (Except.ok ("GoMusicDownloader/downloads/" ++
        sanitizeFilename (tags0.Artist ++ " - " ++ tags0.Title ++ ".flac"))) := by
  constructor
  · exact (downloadCmd_failure_policy emptyItem relItem0 rel0 tags0 ("tmp") envAudioFail
      (by decide)).1 "boom" rfl
  · exact ((downloadCmd_failure_policy emptyItem relItem0 rel0 tags0 ("tmp") envAllMiss
      (by decide)).2 rfl rfl (by decide) (by decide) (by decide)).2.2

/-- C10: a successful parallel-search completion always moves the
controller to `stateSelectYT`, with the returned lists installed verbatim
— including when either or both lists are empty; `searchCmd` itself has no
zero-result branch: any pair of successful goroutine results is delivered
as a success message. -/
theorem searchFinished_always_selectYT :
    ∀ (m : model) (ytItems mbItems : List item) (e : String),
      update m (Msg.searchFinished (Except.ok (ytItems, mbItems))) =
        Except.ok ({ m with
            state := stateSelectYT,
            ytResults := newListModel ("どの音源をダウンロードしますか？") ytItems,
            mbResults := newListModel ("どのリリースからタグ情報を取得しますか？") mbItems },
          Dispatch.none) ∧
      searchCmdRun (Except.ok ytItems) (Except.ok mbItems) =
        Msg.searchFinished (Except.ok (ytItems, mbItems)) ∧
      searchCmdRun (Except.error e) (Except.ok mbItems) =
        Msg.searchFinished (Except.error e) ∧
      update m (Msg.searchFinished (Except.ok (([] : List item), ([] : List item)))) =
        Except.ok ({ m with
            state := stateSelectYT,
            ytResults := newListModel ("どの音源をダウンロードしますか？") [],
            mbResults := newListModel ("どのリリースからタグ情報を取得しますか？") [] },
          Dispatch.none) := by
  intro m ytItems mbItems e
  exact ⟨rfl, rfl, rfl, rfl⟩

/-- C1 counterexample: in `stateSelectYT` NO key event reaches
`stateConfirmSkipMB` — the state only handles Enter (select, dispatching
the release search) and Esc (back); the skip key is handled in
`stateSelectMB` instead. The claim, which asserts a skip event exists in
`stateSelectYT`, is false at the concrete model `mSelYT`. -/
theorem selectYT_skip_refuted :
    ¬ (∀ m : model, m.state = stateSelectYT →
        ∃ (k : Key) (m2 : model) (d : Dispatch),
          update m (Msg.key k) = Except.ok (m2, d) ∧ m2.state = stateConfirmSkipMB) := by
  intro h
  obtain ⟨k, m2, d, hu, hs⟩ := h mSelYT rfl
  cases k with
  | enter =>
    have he : update mSelYT (Msg.key Key.enter) = Except.ok (mSelYT, Dispatch.none) := rfl
    rw [he] at hu
    obtain rfl : mSelYT = m2 := congrArg Prod.fst (Except.ok.inj hu)
    exact absurd hs (by decide)
  | esc =>
    have he : update mSelYT (Msg.key Key.esc) =
        Except.ok ({ mSelYT with state := stateInput }, Dispatch.none) := rfl
    rw [he] at hu
    obtain rfl : { mSelYT with state := stateInput } = m2 :=
      congrArg Prod.fst (Except.ok.inj hu)
    exact absurd hs (by decide)
  | ctrlC =>
    have he : update mSelYT (Msg.key Key.ctrlC) = Except.ok (mSelYT, Dispatch.quit) := rfl
    rw [he] at hu
    obtain rfl : mSelYT = m2 := congrArg Prod.fst (Except.ok.inj hu)
    exact absurd hs (by decide)
  | up =>
    have he : update mSelYT (Msg.key Key.up) = Except.ok (mSelYT, Dispatch.none) := rfl
    rw [he] at hu
    obtain rfl : mSelYT = m2 := congrArg Prod.fst (Except.ok.inj hu)
    exact absurd hs (by decide)
  | down =>
    have he : update mSelYT (Msg.key Key.down) = Except.ok (mSelYT, Dispatch.none) := rfl
    rw [he] at hu
    obtain rfl : mSelYT = m2 := congrArg Prod.fst (Except.ok.inj hu)
    exact absurd hs (by decide)
  | char c =>
    have he : update mSelYT (Msg.key (Key.char c)) = Except.ok (mSelYT, Dispatch.none) := rfl
    rw [he] at hu
    obtain rfl : mSelYT = m2 := congrArg Prod.fst (Except.ok.inj hu)
    exact absurd hs (by decide)
  | other s =>
    have he : update mSelYT (Msg.key (Key.other s)) = Except.ok (mSelYT, Dispatch.none) := rfl
    rw [he] at hu
    obtain rfl : mSelYT = m2 := congrArg Prod.fst (Except.ok.inj hu)
    exact absurd hs (by decide)

/-- C1 amended: the dedicated skip key (`s`) lives in `stateSelectMB`
(release selection), not `stateSelectYT`: for every model in
`stateSelectMB`, pressing `s` moves the controller to `stateConfirmSkipMB`
with no download (or any other command) dispatched. -/
theorem selectMB_skip_transition :
    ∀ m : model, m.state = stateSelectMB →
      update m (Msg.key (Key.char 's')) =
        Except.ok ({ m with state := stateConfirmSkipMB }, Dispatch.none) := by
  intro m hm
  obtain ⟨st, inp, tIn, fi, ytR, mbR, tr, sYT, sMB, sTr, sMsg, err, yp, fp, w, hgt, lf⟩ := m
  dsimp only at hm
  subst hm
  rfl

/-- C1 witness: the concrete `mSelMB` model skips on `s`. -/
theorem selectMB_skip_transition_witness :
    update mSelMB (Msg.key (Key.char 's')) =
      Except.ok ({ mSelMB with state := stateConfirmSkipMB }, Dispatch.none) :=
  selectMB_skip_transition mSelMB rfl

/-- C6: any non-quit key in `stateShowSuccess` or `stateError` leaves the
model unchanged and dispatches the reset command; handling the reset
message rebuilds a fresh model in `stateInput` carrying forward exactly
the two tool paths and the terminal dimensions, with every
workflow-scoped field (selections, tag inputs, error, status, last file,
input text) at its fresh value. -/
theorem display_state_reset :
    ∀ (m : model) (k : Key),
      ((m.state = stateShowSuccess ∨ m.state = stateError) → k ≠ Key.ctrlC →
        update m (Msg.key k) = Except.ok (m, Dispatch.reset)) ∧
      (update m Msg.reset = Except.ok ({ newModel with
          ytDlpPath := m.ytDlpPath,
          ffmpegPath := m.ffmpegPath,
          width := m.width,
          height := m.height,
          state := stateInput,
          statusMsg := "" }, Dispatch.none)) ∧
      ∃ m2, update m Msg.reset = Except.ok (m2, Dispatch.none) ∧
        m2.state = stateInput ∧ m2.ytDlpPath = m.ytDlpPath ∧ m2.ffmpegPath = m.ffmpegPath ∧
        m2.width = m.width ∧ m2.height = m.height ∧
        m2.selectedYT = emptyItem ∧ m2.selectedMB = emptyItem ∧ m2.selectedTrack = emptyItem ∧
        m2.tagInputs = [] ∧ m2.error = none ∧ m2.statusMsg = "" ∧ m2.lastFile = "" ∧
        m2.focusIndex = 0 ∧ m2.input.value = "" := by
  intro m k
  refine ⟨?_, rfl, ?_⟩
  · intro hst hk
    obtain ⟨st, inp, tIn, fi, ytR, mbR, tr, sYT, sMB, sTr, sMsg, err, yp, fp, w, hgt, lf⟩ := m
    dsimp only at hst
    rcases hst with h | h <;> subst h <;>
      (simp only [update]; rw [if_neg hk]; rfl)
  · exact ⟨_, rfl, rfl, rfl, rfl, rfl, rfl, rfl, rfl, rfl, rfl, rfl, rfl, rfl, rfl, rfl⟩

/-- C6 witness: on the concrete success-screen model, Enter dispatches the
reset. -/
theorem display_state_reset_witness :
    update mSucc (Msg.key Key.enter) = Except.ok (mSucc, Dispatch.reset) :=
  (display_state_reset mSucc Key.enter).1 (Or.inl rfl) (by decide)

theorem list_len5 {α : Type _} : ∀ (l : List α), l.length = 5 →
    ∃ a b c d e, l = [a, b, c, d, e]
  | [], h => absurd h (by simp)
  | [a], h => absurd h (by simp)
  | [a, b], h => absurd h (by simp)
  | [a, b, c], h => absurd h (by simp)
  | [a, b, c, d], h => absurd h (by simp)
  | [a, b, c, d, e], _ => ⟨a, b, c, d, e, rfl⟩
  | a :: b :: c :: d :: e :: f :: rest, h => by
    simp only [List.length_cons] at h
    omega

/-- The trailing component update never changes the focus index. -/
theorem applyTrailing_ok_focus (m : model) (k : Key) (m2 : model)
    (h : applyTrailing m k = Except.ok m2) : m2.focusIndex = m.focusIndex := by
  unfold applyTrailing at h
  split at h
  · exact (congrArg model.focusIndex (Except.ok.inj h)).symm
  · exact (congrArg model.focusIndex (Except.ok.inj h)).symm
  · exact (congrArg model.focusIndex (Except.ok.inj h)).symm
  · exact (congrArg model.focusIndex (Except.ok.inj h)).symm
  · split_ifs at h
    · exact (congrArg model.focusIndex (Except.ok.inj h)).symm
    · exact (congrArg model.focusIndex (Except.ok.inj h)).symm
  · exact (congrArg model.focusIndex (Except.ok.inj h)).symm

/-- C9: confirming the last tag field finalizes the TagSet with the
album-artist equal to the artist field (both read from tag input 1) and
the duration equal to the selected track's millisecond length divided by
1000, truncated (Go integer division, `Int.tdiv`). -/
theorem finalize_tags_albumartist_duration :
    ∀ (m : model) (t : MBTrack),
      m.state = stateEditTags → m.tagInputs.length = 5 → m.focusIndex = 4 →
      m.selectedTrack.meta = Meta.track t →
      ∃ (m2 : model) (tags : finalTags),
        update m (Msg.key Key.enter) =
          Except.ok (m2,
            Dispatch.download m.ytDlpPath m.ffmpegPath m.selectedYT m.selectedMB tags) ∧
        m2.state = stateDownloading ∧
        tags.AlbumArtist = tags.Artist ∧
        tags.DurationSec = Int.tdiv t.length 1000 := by
  intro m t hst hlen hfi hmeta
  obtain ⟨st, inp, tIn, fi, ytR, mbR, tr, sYT, sMB, sTr, sMsg, err, yp, fp, w, hgt, lf⟩ := m
  dsimp only at hst hlen hfi hmeta ⊢
  subst hst
  subst hfi
  obtain ⟨a0, a1, a2, a3, a4, rfl⟩ := list_len5 tIn hlen
  obtain ⟨t1, t2, t3, t4, t5, t6, mt⟩ := sTr
  dsimp only at hmeta
  subst hmeta
  exact ⟨_, _, rfl, rfl, rfl, rfl⟩

/-- C9 witness: the concrete editor model with a 215500 ms track yields
durationSeconds 215 and a duplicated album-artist. -/
theorem finalize_tags_albumartist_duration_witness :
    ∃ (m2 : model) (tags : finalTags),
      update mEdit0 (Msg.key Key.enter) =
        Except.ok (m2, Dispatch.download mEdit0.ytDlpPath mEdit0.ffmpegPath
          mEdit0.selectedYT mEdit0.selectedMB tags) ∧
      m2.state = stateDownloading ∧
      tags.AlbumArtist = tags.Artist ∧
      tags.DurationSec = 215 := by
  obtain ⟨m2, tags, h1, h2, h3, h4⟩ :=
    finalize_tags_albumartist_duration mEdit0 track0 rfl (by decide) rfl rfl
  refine ⟨m2, tags, h1, h2, h3, ?_⟩
  rw [h4]
  decide

/-- C3 counterexample: payload accesses do NOT fail closed. When the
selected track's payload is not track metadata, confirming the last tag
field hits the unchecked Go type assertion and the process panics
(`GoPanic.typeAssertion`), instead of an error value being returned; the
same holds for tag-input creation on a payload-less item. -/
theorem tag_finalize_unchecked_cast_panics :
    update mBadMeta (Msg.key Key.enter) =
      Except.error (GoPanic.typeAssertion ("main.MBTrack")) ∧
    createTagInputs emptyItem emptyItem =
      Except.error (GoPanic.typeAssertion ("main.MBRelease")) := by
  exact ⟨rfl, rfl⟩

/-- C3 amended: the payload accesses are unchecked type assertions that
panic on a kind mismatch (no fail-closed accessor exists); tag-input
creation succeeds exactly when the selected release carries release
metadata and the selected track carries track metadata, and tag
finalization on the last field succeeds exactly when the selected track
carries track metadata — which is what the selection transitions
establish, so the normal flow never panics. -/
theorem payload_access_succeeds_iff_kind_matches :
    (∀ mb tr : item,
      (∃ inputs, createTagInputs mb tr = Except.ok inputs) ↔
        ((∃ r, mb.meta = Meta.release r) ∧ (∃ t, tr.meta = Meta.track t))) ∧
    (∀ m : model, m.state = stateEditTags → m.tagInputs.length = 5 → m.focusIndex = 4 →
      ((∃ res, update m (Msg.key Key.enter) = Except.ok res) ↔
        (∃ t, m.selectedTrack.meta = Meta.track t))) := by
  constructor
  · intro mb tr
    constructor
    · intro ⟨inputs, h⟩
      unfold createTagInputs at h
      split at h
      · split at h
        · exact ⟨⟨_, by assumption⟩, ⟨_, by assumption⟩⟩
        · exact Except.noConfusion h
      · exact Except.noConfusion h
    · intro ⟨⟨r, hr⟩, ⟨t, ht⟩⟩
      refine ⟨List.map (fun v => ({ value := v, focused := false } : TextInput))
        [t.title, tr.artist, r.title, r.date, t.number], ?_⟩
      unfold createTagInputs
      rw [hr, ht]
  · intro m hst hlen hfi
    obtain ⟨st, inp, tIn, fi, ytR, mbR, tr, sYT, sMB, sTr, sMsg, err, yp, fp, w, hgt, lf⟩ := m
    dsimp only at hst hlen hfi ⊢
    subst hst
    subst hfi
    obtain ⟨a0, a1, a2, a3, a4, rfl⟩ := list_len5 tIn hlen
    obtain ⟨t1, t2, t3, t4, t5, t6, mt⟩ := sTr
    dsimp only
    constructor
    · intro ⟨res, h⟩
      cases mt with
      | nothing => exact Except.noConfusion h
      | release r => exact Except.noConfusion h
      | track t => exact ⟨t, rfl⟩
    · intro ⟨t, ht⟩
      subst ht
      exact ⟨_, rfl⟩

/-- C3 witness: with matching payload kinds both accesses succeed. -/
theorem payload_access_succeeds_iff_kind_matches_witness :
    (∃ inputs, createTagInputs relItem0 trackItem0 = Except.ok inputs) ∧
    (∃ res, update mEdit0 (Msg.key Key.enter) = Except.ok res) := by
  have h := payload_access_succeeds_iff_kind_matches
  exact ⟨(h.1 relItem0 trackItem0).mpr ⟨⟨rel0, rfl⟩, ⟨track0, rfl⟩⟩,
    (h.2 mEdit0 rfl (by decide) rfl).mpr ⟨track0, rfl⟩⟩

/-- In the tag editor, any key handling that returns normally keeps the
focus index inside `[0,5)`. -/
theorem handleKey_editTags_range (m : model) (k : Key) (m1 : model) (d : Dispatch)
    (hst : m.state = stateEditTags) (hlen : m.tagInputs.length = 5)
    (h0 : 0 ≤ m.focusIndex) (h5 : m.focusIndex < 5)
    (h : handleKey m k = Except.ok (m1, d)) :
    0 ≤ m1.focusIndex ∧ m1.focusIndex < 5 := by
  unfold handleKey at h
  rw [hst] at h
  dsimp only at h
  rw [hlen] at h
  split_ifs at h <;>
    first
      | exact Except.noConfusion h
      | (split at h <;>
          first
            | exact Except.noConfusion h
            | (injection h with h1
               injection h1 with h2 h3
               subst h2
               dsimp only
               omega))
      | (injection h with h1
         injection h1 with h2 h3
         subst h2
         dsimp only
         omega)

/-- Confirming a non-last field advances the focus by exactly one. -/
theorem handleKey_editTags_enter_adv (m : model) (m1 : model) (d : Dispatch)
    (hst : m.state = stateEditTags) (hlen : m.tagInputs.length = 5)
    (h0 : 0 ≤ m.focusIndex) (hlt : m.focusIndex < 4)
    (h : handleKey m Key.enter = Except.ok (m1, d)) :
    m1.focusIndex = m.focusIndex + 1 := by
  unfold handleKey at h
  rw [hst] at h
  dsimp only at h
  rw [hlen] at h
  split_ifs at h with hc1 <;>
    first
      | omega
      | exact absurd rfl hc1
      | exact False.elim (by assumption)
      | exact Except.noConfusion h
      | (injection h with h1
         have h2 := congrArg (fun p : model × Dispatch => p.1.focusIndex) h1
         dsimp only at h2
         omega)
      | (split at h <;>
          first
            | exact Except.noConfusion h
            | (injection h with h1
               have h2 := congrArg (fun p : model × Dispatch => p.1.focusIndex) h1
               dsimp only at h2
               omega))

/-- C7: in the tag editor (5 inputs, focus in range), every key event
keeps the focus index in `[0,5)`; moving down from 4 wraps to 0; moving up
from 0 wraps to 4; and confirming (Enter) on a non-last field advances the
focus by exactly one. -/
theorem editTags_focus_invariant :
    ∀ (m : model),
      m.state = stateEditTags → m.tagInputs.length = 5 →
      0 ≤ m.focusIndex → m.focusIndex < 5 →
      (∀ (k : Key) (m2 : model) (d : Dispatch),
        update m (Msg.key k) = Except.ok (m2, d) →
        0 ≤ m2.focusIndex ∧ m2.focusIndex < 5) ∧
      (m.focusIndex = 4 → ∃ m2 d, update m (Msg.key Key.down) = Except.ok (m2, d) ∧
        m2.focusIndex = 0) ∧
      (m.focusIndex = 0 → ∃ m2 d, update m (Msg.key Key.up) = Except.ok (m2, d) ∧
        m2.focusIndex = 4) ∧
      (m.focusIndex < 4 → ∀ (m2 : model) (d : Dispatch),
        update m (Msg.key Key.enter) = Except.ok (m2, d) →
        m2.focusIndex = m.focusIndex + 1) := by
  intro m hst hlen h0 h5
  obtain ⟨st, inp, tIn, fi, ytR, mbR, tr, sYT, sMB, sTr, sMsg, err, yp, fp, w, hgt, lf⟩ := m
  dsimp only at hst hlen h0 h5 ⊢
  subst hst
  obtain ⟨a0, a1, a2, a3, a4, rfl⟩ := list_len5 tIn hlen
  refine ⟨?_, ?_, ?_, ?_⟩
  · intro k m2 d hu
    by_cases hk : k = Key.ctrlC
    · subst hk
      have he := Except.ok.inj hu
      have h2 := congrArg (fun p : model × Dispatch => p.1.focusIndex) he
      dsimp only at h2
      omega
    · simp only [update] at hu
      rw [if_neg hk] at hu
      cases hh : handleKey (model.mk stateEditTags inp [a0, a1, a2, a3, a4] fi ytR mbR tr
          sYT sMB sTr sMsg err yp fp w hgt lf) k with
      | error p => rw [hh] at hu; exact Except.noConfusion hu
      | ok pr =>
        obtain ⟨m1, d1⟩ := pr
        rw [hh] at hu
        dsimp only at hu
        cases ht : applyTrailing m1 k with
        | error p => rw [ht] at hu; exact Except.noConfusion hu
        | ok m2' =>
          rw [ht] at hu
          dsimp only at hu
          have he := Except.ok.inj hu
          have h2 := congrArg (fun p : model × Dispatch => p.1.focusIndex) he
          dsimp only at h2
          have hfoc := applyTrailing_ok_focus m1 k m2' ht
          have hrange := handleKey_editTags_range
            (model.mk stateEditTags inp [a0, a1, a2, a3, a4] fi ytR mbR tr
              sYT sMB sTr sMsg err yp fp w hgt lf) k m1 d1 rfl rfl h0 h5 hh
          omega
  · intro hfi
    subst hfi
    exact ⟨_, _, rfl, rfl⟩
  · intro hfi
    subst hfi
    exact ⟨_, _, rfl, rfl⟩
  · intro hlt m2 d hu
    simp only [update] at hu
    rw [if_neg (by decide : ¬ (Key.enter = Key.ctrlC))] at hu
    cases hh : handleKey (model.mk stateEditTags inp [a0, a1, a2, a3, a4] fi ytR mbR tr
        sYT sMB sTr sMsg err yp fp w hgt lf) Key.enter with
    | error p => rw [hh] at hu; exact Except.noConfusion hu
    | ok pr =>
      obtain ⟨m1, d1⟩ := pr
      rw [hh] at hu
      dsimp only at hu
      cases ht : applyTrailing m1 Key.enter with
      | error p => rw [ht] at hu; exact Except.noConfusion hu
      | ok m2' =>
        rw [ht] at hu
        dsimp only at hu
        have he := Except.ok.inj hu
        have h2 := congrArg (fun p : model × Dispatch => p.1.focusIndex) he
        dsimp only at h2
        have hfoc := applyTrailing_ok_focus m1 Key.enter m2' ht
        have hadv := handleKey_editTags_enter_adv
          (model.mk stateEditTags inp [a0, a1, a2, a3, a4] fi ytR mbR tr
            sYT sMB sTr sMsg err yp fp w hgt lf) m1 d1 rfl rfl h0 hlt hh
        dsimp only at hadv
        omega

/-- C7 witness: on the concrete editor models, down from 4 wraps to 0 and
Enter on field 1 advances to field 2. -/
theorem editTags_focus_invariant_witness :
    (∃ m2 d, update mEdit0 (Msg.key Key.down) = Except.ok (m2, d) ∧ m2.focusIndex = 0) ∧
    (∃ m2 d, update mEdit1 (Msg.key Key.enter) = Except.ok (m2, d) ∧
      m2.focusIndex = mEdit1.focusIndex + 1) := by
  have h := editTags_focus_invariant mEdit0 rfl (by decide) (by decide) (by decide)
  have h1 := editTags_focus_invariant mEdit1 rfl (by decide) (by decide) (by decide)
  exact ⟨h.2.1 rfl, ⟨_, _, rfl, h1.2.2.2 (by decide) _ _ rfl⟩⟩
